import Mathlib

/-!
Verification development for the `rustcafe` JVM class-file reader
(`src/class.rs`, `src/main.rs`).

The Rust source is shallowly embedded as follows.

* The byte source (`ClassFile { file: File }`) becomes a `ClassFile`
  structure holding the file's bytes as a `List Nat` together with the
  read cursor.  `std::fs::File::read(&mut buf)` on a regular file fills a
  prefix of `buf` with the bytes still available (zero bytes at end of
  file) and returns `Ok(count)`; the source ignores `count` and keeps the
  zero-initialised tail of the buffer, which is modelled by `file_read`
  returning the available prefix, the callers padding with `0`.
* A Rust `panic!` (including the implicit panics of checked integer
  underflow and out-of-bounds indexing in debug builds, and of
  `Option::unwrap`) is modelled as the `DResult.abort` outcome; ordinary
  returns are `DResult.ok`.  Functions that cannot panic keep plain types.
* The recursion `Attributes::new` -> `read_code` -> `Attributes::new`
  (a `Code` attribute carries a nested attribute table) is bounded in the
  Rust program by the finite file; the embedding makes the nesting
  explicit with a `fuel` argument that is only consumed when entering a
  nested attribute table, `DResult.outOfFuel` marking exhaustion.  Any
  fuel larger than the nesting depth of the input reproduces the source
  behaviour; concrete inputs below use ample fuel.
* `String::from_utf8(bytes).unwrap()` for UTF8 constant-pool entries is
  not re-validated: the decoded strings are carried as their raw byte
  lists (`List Nat`) and string comparisons against literals such as
  `"Code"` compare byte lists, which agrees with Rust string equality on
  valid UTF-8 (UTF-8 encoding is injective).
-/

namespace Rustcafe

/-- Outcome of running a piece of the decoder: a normal return, a Rust
panic (`abort`, with the panic message), or exhaustion of the explicit
nesting-depth fuel of the embedding. -/
inductive DResult (α : Type) where
  | ok : α → DResult α
  | abort : String → DResult α
  | outOfFuel : DResult α

/-- Map over a successful result. -/
def DResult.map {α β : Type} (f : α → β) : DResult α → DResult β
  | .ok a => .ok (f a)
  | .abort m => .abort m
  | .outOfFuel => .outOfFuel

/-- Sequence two decoding steps, propagating panics. -/
def DResult.bind {α β : Type} : DResult α → (α → DResult β) → DResult β
  | .ok a, f => f a
  | .abort m, _ => .abort m
  | .outOfFuel, _ => .outOfFuel

/-- Rust `struct ClassFile { file: File }` (class.rs line 8): the byte source,
embedded as the file's bytes plus the current read position. -/
structure ClassFile where
  data : List Nat
  pos : Nat
deriving DecidableEq, Repr

/-- Behaviour of `self.file.read(&mut b)` on a regular file: the bytes
still available are returned, at most `n` of them, and the cursor
advances past them.  Fewer than `n` bytes (possibly none) are returned
when the file is nearly or fully exhausted. -/
def file_read (cf : ClassFile) (n : Nat) : List Nat × ClassFile :=
  let taken := (cf.data.drop cf.pos).take n
  (taken, ⟨cf.data, cf.pos + taken.length⟩)

/-- Embedding of `ClassFile::read_u8` (class.rs lines 57-61): one-byte buffer
initialised to `[0; 1]`, filled by `read`, first cell returned.  At end
of file the buffer keeps its `0`. -/
def ClassFile.read_u8 (cf : ClassFile) : Nat × ClassFile :=
  let (b, cf) := file_read cf 1
  (b.getD 0 0, cf)

/-- Embedding of `ClassFile::read_u16` (class.rs lines 63-68): two-byte buffer,
big-endian assembly `(b[0] << 8) | b[1]`; bytes not provided by `read`
stay `0`. -/
def ClassFile.read_u16 (cf : ClassFile) : Nat × ClassFile :=
  let (b, cf) := file_read cf 2
  ((b.getD 0 0) <<< 8 ||| (b.getD 1 0), cf)

/-- Embedding of `ClassFile::read_u32` (class.rs lines 70-77): four-byte buffer,
big-endian assembly `(b[0] << 24) | (b[1] << 16) | (b[2] << 8) | b[3]`;
bytes not provided by `read` stay `0`. -/
def ClassFile.read_u32 (cf : ClassFile) : Nat × ClassFile :=
  let (b, cf) := file_read cf 4
  ((b.getD 0 0) <<< 24 ||| (b.getD 1 0) <<< 16 |||
   (b.getD 2 0) <<< 8 ||| (b.getD 3 0), cf)

/-- Rust `struct Version` (class.rs lines 82-85). -/
structure Version where
  minor : Nat
  major : Nat
deriving DecidableEq, Repr

/-- Embedding of `Version::new` (class.rs lines 89-94): minor is read first. -/
def Version.new (cf : ClassFile) : Version × ClassFile :=
  let (minor, cf) := cf.read_u16
  let (major, cf) := cf.read_u16
  (⟨minor, major⟩, cf)

/-- Rust `enum ConstantPoolItem` (class.rs lines 103-127).  The UTF8 payload
is kept as its raw bytes (see the module comment). -/
inductive ConstantPoolItem where
  | Class (name_index : Nat)
  | Methodref (class_index name_and_type_index : Nat)
  | InterfaceMethodref (class_index name_and_type_index : Nat)
  | MethodHandle (reference_kind : Nat) (reference_index : Nat)
  | NameAndType (name_index descriptor_index : Nat)
  | UTF8 (string : List Nat)
deriving DecidableEq, Repr

/-- Rust `struct ConstantPool` (class.rs lines 98-101). -/
structure ConstantPool where
  items : List ConstantPoolItem
deriving DecidableEq, Repr

/-- One iteration body of the tag dispatch in `ConstantPool::new`
(class.rs lines 136-178), after the tag byte has been read.  The final
arm is `panic!("constant object with tag: {} not implemented", tag)`. -/
def read_cp_item (cf : ClassFile) (tag : Nat) : DResult (ConstantPoolItem × ClassFile) :=
  if tag = 7 then
    let (name_index, cf) := cf.read_u16
    .ok (.Class name_index, cf)
  else if tag = 10 then
    let (class_index, cf) := cf.read_u16
    let (name_and_type_index, cf) := cf.read_u16
    .ok (.Methodref class_index name_and_type_index, cf)
  else if tag = 11 then
    let (class_index, cf) := cf.read_u16
    let (name_and_type_index, cf) := cf.read_u16
    .ok (.InterfaceMethodref class_index name_and_type_index, cf)
  else if tag = 15 then
    let (reference_kind, cf) := cf.read_u8
    let (reference_index, cf) := cf.read_u16
    .ok (.MethodHandle reference_kind reference_index, cf)
  else if tag = 12 then
    let (name_index, cf) := cf.read_u16
    let (descriptor_index, cf) := cf.read_u16
    .ok (.NameAndType name_index descriptor_index, cf)
  else if tag = 1 then
    let (length, cf) := cf.read_u16
    let (b, cf) := file_read cf length
    let string := b ++ List.replicate (length - b.length) 0
    .ok (.UTF8 string, cf)
  else
    .abort ("constant object with tag: " ++ toString tag ++ " not implemented")

/-- The entry loop of `ConstantPool::new` (class.rs lines 134-180):
decode `n` tag-prefixed entries in order. -/
def constant_pool_items : Nat → ClassFile → DResult (List ConstantPoolItem × ClassFile)
  | 0, cf => .ok ([], cf)
  | n + 1, cf =>
    let (tag, cf) := cf.read_u8
    (read_cp_item cf tag).bind fun (item, cf) =>
      (constant_pool_items n cf).map fun (items, cf) => (item :: items, cf)

/-- Embedding of `ConstantPool::new` (class.rs lines 131-185): reads
`constant_pool_count` and decodes `constant_pool_count - 1` entries.
The subtraction is on `u16`; for a count of `0` it underflows, which a
debug build reports as a subtract-with-overflow panic — modelled by the
`abort` branch. -/
def ConstantPool.new (cf : ClassFile) : DResult (ConstantPool × ClassFile) :=
  let (constant_pool_count, cf) := cf.read_u16
  if constant_pool_count = 0 then
    .abort "attempt to subtract with overflow"
  else
    (constant_pool_items (constant_pool_count - 1) cf).map fun (items, cf) =>
      (⟨items⟩, cf)

/-- Embedding of `ConstantPool::class_name` (class.rs lines 187-199): two-hop lookup,
`items[(index as usize) - 1]` (debug underflow panic when the index is
`0`, out-of-bounds panic when too large), a `Class` entry required
(`panic!("reference error")` otherwise), then the same for its
`name_index`, which must land on a `UTF8` entry. -/
def ConstantPool.class_name (cp : ConstantPool) (index : Nat) : DResult (List Nat) :=
  if index = 0 then .abort "attempt to subtract with overflow"
  else
    match cp.items.get? (index - 1) with
    | none => .abort "index out of bounds"
    | some (.Class name_index) =>
      if name_index = 0 then .abort "attempt to subtract with overflow"
      else
        match cp.items.get? (name_index - 1) with
        | none => .abort "index out of bounds"
        | some (.UTF8 string) => .ok string
        | some _ => .abort "reference error"
    | some _ => .abort "reference error"

/-- The scan loop of `ConstantPool::utf8_item_index_by_name`
(class.rs lines 201-215), carrying the current zero-based position. -/
def utf8_find : List ConstantPoolItem → Nat → List Nat → Option Nat
  | [], _, _ => none
  | .UTF8 string :: rest, i, name =>
    if string = name then some (i + 1) else utf8_find rest (i + 1) name
  | _ :: rest, i, name => utf8_find rest (i + 1) name

/-- Embedding of `ConstantPool::utf8_item_index_by_name` (class.rs lines 201-215):
1-based pool index of the first UTF8 entry equal to `name`. -/
def ConstantPool.utf8_item_index_by_name (cp : ConstantPool) (name : List Nat) : Option Nat :=
  utf8_find cp.items 0 name

/-- Rust `struct ExceptionTable` (class.rs lines 311-316). -/
structure ExceptionTable where
  start_pc : Nat
  end_pc : Nat
  handler_pc : Nat
  catch_type : Nat
deriving DecidableEq, Repr

/-- Embedding of `ExceptionTable::new` (class.rs lines 320-327). -/
def ExceptionTable.new (cf : ClassFile) : ExceptionTable × ClassFile :=
  let (start_pc, cf) := cf.read_u16
  let (end_pc, cf) := cf.read_u16
  let (handler_pc, cf) := cf.read_u16
  let (catch_type, cf) := cf.read_u16
  (⟨start_pc, end_pc, handler_pc, catch_type⟩, cf)

/-- Rust `struct LineNumberTable` (class.rs lines 332-335): one table row. -/
structure LineNumberTable where
  start_pc : Nat
  line_number : Nat
deriving DecidableEq, Repr

/-- Rust `enum AttributeItem` (class.rs lines 381-448).  The only variants
present in the source are `ConstantValue`, `Code` and `LineNumberTable`;
the nested attribute table of `Code` is carried as its item list. -/
inductive AttributeItem where
  | ConstantValue (constantvalue_index : Nat)
  | Code (max_stack max_locals : Nat) (code : List Nat)
      (exception_table : List ExceptionTable) (attributes : List AttributeItem)
  | LineNumberTable (line_number_table : List LineNumberTable)
deriving Repr

/-- Rust `struct Attributes` (class.rs lines 275-277). -/
structure Attributes where
  items : List AttributeItem
deriving Repr

/-- The byte loop of `read_code` (class.rs lines 456-458): `code_length`
single-byte reads. -/
def read_n_u8 : Nat → ClassFile → List Nat × ClassFile
  | 0, cf => ([], cf)
  | n + 1, cf =>
    let (b, cf) := cf.read_u8
    let (rest, cf) := read_n_u8 n cf
    (b :: rest, cf)

/-- The exception-table loop of `read_code` (class.rs lines 461-463). -/
def read_exception_tables : Nat → ClassFile → List ExceptionTable × ClassFile
  | 0, cf => ([], cf)
  | n + 1, cf =>
    let (e, cf) := ExceptionTable.new cf
    let (rest, cf) := read_exception_tables n cf
    (e :: rest, cf)

/-- The row loop of `read_line_number_table` (class.rs lines 478-485). -/
def read_lnt_entries : Nat → ClassFile → List LineNumberTable × ClassFile
  | 0, cf => ([], cf)
  | n + 1, cf =>
    let (start_pc, cf) := cf.read_u16
    let (line_number, cf) := cf.read_u16
    let (rest, cf) := read_lnt_entries n cf
    (⟨start_pc, line_number⟩ :: rest, cf)

/-- Embedding of `read_line_number_table` (class.rs lines 475-489). -/
def read_line_number_table (cf : ClassFile) : AttributeItem × ClassFile :=
  let (length, cf) := cf.read_u16
  let (line_number_table, cf) := read_lnt_entries length cf
  (.LineNumberTable line_number_table, cf)

/-- Byte list of the attribute name `"Code"`. -/
def codeName : List Nat := [67, 111, 100, 101]

/-- Byte list of the attribute name `"ConstantValue"`. -/
def constantValueName : List Nat := [67, 111, 110, 115, 116, 97, 110, 116, 86, 97, 108, 117, 101]

/-- Byte list of the attribute name `"LineNumberTable"`. -/
def lineNumberTableName : List Nat := [76, 105, 110, 101, 78, 117, 109, 98, 101, 114, 84, 97, 98, 108, 101]

/-- Byte list of the method name `"main"`. -/
def mainName : List Nat := [109, 97, 105, 110]

mutual

/-- Embedding of `Attributes::new` (class.rs lines 281-306): reads the attribute
count and decodes that many attribute records.  Every function of this
mutual group consumes one unit of fuel on entry, so the group is
structurally recursive on `fuel` (see the module comment); any fuel
exceeding the recursion depth of the input reproduces the source. -/
def Attributes.new (cp : ConstantPool) (fuel : Nat) (cf : ClassFile) :
    DResult (Attributes × ClassFile) :=
  match fuel with
  | 0 => .outOfFuel
  | fuel + 1 =>
    let (count, cf) := cf.read_u16
    (attr_items cp fuel count cf).map fun (items, cf) => (⟨items⟩, cf)

/-- The record loop of `Attributes::new` (class.rs lines 285-302):
for each record, read `attribute_name_index` (u16) and
`attribute_length` (u32) — the length is bound to `_attribute_length`
and never used — then look the name up in the pool
(`&constant_pool.items[attribute_name_index-1]`, with the debug
underflow/out-of-bounds panics of that indexing), require a UTF8 entry
(`panic!("should not happen")` otherwise) and dispatch on the name. -/
def attr_items (cp : ConstantPool) (fuel : Nat) (n : Nat) (cf : ClassFile) :
    DResult (List AttributeItem × ClassFile) :=
  match fuel with
  | 0 => .outOfFuel
  | fuel + 1 =>
    match n with
    | 0 => .ok ([], cf)
    | n + 1 =>
      let (attribute_name_index, cf) := cf.read_u16
      let (_attribute_length, cf) := cf.read_u32
      if attribute_name_index = 0 then .abort "attempt to subtract with overflow"
      else
        match cp.items.get? (attribute_name_index - 1) with
        | none => .abort "index out of bounds"
        | some (.UTF8 string) =>
          match attr_dispatch cp fuel string cf with
          | .ok (attr, cf) =>
            (attr_items cp fuel n cf).map fun (items, cf) => (attr :: items, cf)
          | .abort m => .abort m
          | .outOfFuel => .outOfFuel
        | some _ => .abort "should not happen"

/-- The name dispatch of `Attributes::new` (class.rs lines 293-300).
The last arm is `panic!(format!("attribute: '{}', not implemented",
string))`; the embedding keeps a fixed message (the formatted name is
not reproduced). -/
def attr_dispatch (cp : ConstantPool) (fuel : Nat) (string : List Nat) (cf : ClassFile) :
    DResult (AttributeItem × ClassFile) :=
  match fuel with
  | 0 => .outOfFuel
  | fuel + 1 =>
    if string = codeName then read_code cp fuel cf
    else if string = constantValueName then
      let (constantvalue_index, cf) := cf.read_u16
      .ok (.ConstantValue constantvalue_index, cf)
    else if string = lineNumberTableName then
      let (attr, cf) := read_line_number_table cf
      .ok (attr, cf)
    else .abort "attribute not implemented"

/-- Embedding of `read_code` (class.rs lines 450-473): fixed header, `code_length`
raw bytes, exception table, then a nested attribute table. -/
def read_code (cp : ConstantPool) (fuel : Nat) (cf : ClassFile) :
    DResult (AttributeItem × ClassFile) :=
  match fuel with
  | 0 => .outOfFuel
  | fuel + 1 =>
    let (max_stack, cf) := cf.read_u16
    let (max_locals, cf) := cf.read_u16
    let (code_length, cf) := cf.read_u32
    let (code, cf) := read_n_u8 code_length cf
    let (exception_table_length, cf) := cf.read_u16
    let (exception_table, cf) := read_exception_tables exception_table_length cf
    (Attributes.new cp fuel cf).map fun (attributes, cf) =>
      (.Code max_stack max_locals code exception_table attributes.items, cf)

end

/-- Rust `struct FieldOrMethodItem` (class.rs lines 249-254). -/
structure FieldOrMethodItem where
  access_flags : Nat
  name_index : Nat
  descriptor_index : Nat
  attributes : Attributes
deriving Repr

/-- Embedding of `FieldOrMethodItem::new` (class.rs lines 258-270). -/
def FieldOrMethodItem.new (cp : ConstantPool) (fuel : Nat) (cf : ClassFile) :
    DResult (FieldOrMethodItem × ClassFile) :=
  let (access_flags, cf) := cf.read_u16
  let (name_index, cf) := cf.read_u16
  let (descriptor_index, cf) := cf.read_u16
  (Attributes.new cp fuel cf).map fun (attributes, cf) =>
    (⟨access_flags, name_index, descriptor_index, attributes⟩, cf)

/-- Rust `struct FieldOrMethods` (class.rs lines 220-222). -/
structure FieldOrMethods where
  items : List FieldOrMethodItem
deriving Repr

/-- The item loop of `FieldOrMethods::new` (class.rs lines 229-231). -/
def fom_items (cp : ConstantPool) (fuel : Nat) : Nat → ClassFile → DResult (List FieldOrMethodItem × ClassFile)
  | 0, cf => .ok ([], cf)
  | n + 1, cf =>
    (FieldOrMethodItem.new cp fuel cf).bind fun (item, cf) =>
      (fom_items cp fuel n cf).map fun (items, cf) => (item :: items, cf)

/-- Embedding of `FieldOrMethods::new` (class.rs lines 226-235). -/
def FieldOrMethods.new (cp : ConstantPool) (fuel : Nat) (cf : ClassFile) :
    DResult (FieldOrMethods × ClassFile) :=
  let (length, cf) := cf.read_u16
  (fom_items cp fuel length cf).map fun (items, cf) => (⟨items⟩, cf)

/-- The scan loop of `FieldOrMethods::by_name_index`
(class.rs lines 237-244). -/
def fom_find : List FieldOrMethodItem → Nat → Option FieldOrMethodItem
  | [], _ => none
  | m :: rest, index => if m.name_index = index then some m else fom_find rest index

/-- Embedding of `FieldOrMethods::by_name_index` (class.rs lines 237-244): first item
whose `name_index` equals `index`. -/
def FieldOrMethods.by_name_index (fm : FieldOrMethods) (index : Nat) : Option FieldOrMethodItem :=
  fom_find fm.items index

/-- Rust `struct Class` (class.rs lines 491-501). -/
structure Class where
  version : Version
  constant_pool : ConstantPool
  access_flags : Nat
  this_class : Nat
  super_class : Nat
  interfaces : List Nat
  fields : FieldOrMethods
  methods : FieldOrMethods
deriving Repr

/-- The interface loop of `ClassFile::read_class`
(class.rs lines 36-39). -/
def read_interfaces : Nat → ClassFile → List Nat × ClassFile
  | 0, cf => ([], cf)
  | n + 1, cf =>
    let (i, cf) := cf.read_u16
    let (rest, cf) := read_interfaces n cf
    (i :: rest, cf)

/-- Embedding of `ClassFile::read_class` (class.rs lines 23-55): magic check
(`panic!("magic bytes not found")` on mismatch), version, constant pool,
flags and indices, interfaces, fields, methods. -/
def ClassFile.read_class (fuel : Nat) (cf : ClassFile) : DResult (Class × ClassFile) :=
  let (magic, cf) := cf.read_u32
  if magic ≠ 0xCAFEBABE then .abort "magic bytes not found"
  else
    let (version, cf) := Version.new cf
    (ConstantPool.new cf).bind fun (constant_pool, cf) =>
      let (access_flags, cf) := cf.read_u16
      let (this_class, cf) := cf.read_u16
      let (super_class, cf) := cf.read_u16
      let (interfaces_count, cf) := cf.read_u16
      let (interfaces, cf) := read_interfaces interfaces_count cf
      (FieldOrMethods.new constant_pool fuel cf).bind fun (fields, cf) =>
        (FieldOrMethods.new constant_pool fuel cf).map fun (methods, cf) =>
          (⟨version, constant_pool, access_flags, this_class, super_class,
            interfaces, fields, methods⟩, cf)

/-- Embedding of `Class::this_class_name` (class.rs lines 505-507). -/
def Class.this_class_name (c : Class) : DResult (List Nat) :=
  c.constant_pool.class_name c.this_class

/-- Embedding of `Class::has_super_class` (class.rs lines 509-511). -/
def Class.has_super_class (c : Class) : Bool :=
  c.super_class ≠ 0

/-- Embedding of `Class::super_class_name` (class.rs lines 513-519), exactly as
written in the source: `if self.has_super_class() { None } else {
Some(self.constant_pool.class_name(self.super_class)) }`. -/
def Class.super_class_name (c : Class) : DResult (Option (List Nat)) :=
  if c.has_super_class then .ok none
  else (c.constant_pool.class_name c.super_class).map some

/-- Embedding of `Class::field_or_method_by_name` (class.rs lines 521-530): resolve
the name to a 1-based UTF8 pool index, then scan the method table. -/
def Class.field_or_method_by_name (c : Class) (string : List Nat) : Option FieldOrMethodItem :=
  match c.constant_pool.utf8_item_index_by_name string with
  | some index => c.methods.by_name_index index
  | none => none

/-- Embedding of `Class::main_func_code` (class.rs lines 532-545):
`field_or_method_by_name("main").unwrap()` (an `Option::unwrap` panic
when absent), then a loop over the attribute items whose both match arms
return — so only the first item is ever inspected: `Some(code)` when it
is a `Code` attribute, `None` otherwise, and `None` for an empty list. -/
def Class.main_func_code (c : Class) : DResult (Option (List Nat)) :=
  match c.field_or_method_by_name mainName with
  | none => .abort "called Option unwrap on a None value"
  | some item =>
    match item.attributes.items with
    | [] => .ok none
    | .Code _ _ code _ _ :: _ => .ok (some code)
    | _ :: _ => .ok none

/-- Rust `enum Type` (class.rs lines 554-573), spelling of the source kept
(`Booean`; there is no `Boolean` and no `Void` variant). -/
inductive Type' where
  | Byte
  | Char
  | Double
  | Float
  | Int
  | Long
  | ClassInstance (name : String)
  | Short
  | Booean
  | Array (dimensions : Nat)
  | Method (return_type : Type') (arguments : List Type')
deriving Repr

/-- Embedding of `read_type` (class.rs lines 575-604).  The body builds two regexes
from constant patterns (`Regex::new(..).unwrap()` cannot fail on them),
uses the match only to drive a debug `println!`, and on every control
path falls through to the same literal result
`Type::Method { return_type: Box::new(Type::Int), arguments:
vec![Type::Int, Type::Int] }`; the println side effect is not
modelled, so the embedding is the constant function. -/
def read_type (_string : String) : Type' :=
  Type'.Method Type'.Int [Type'.Int, Type'.Int]

/-! Concrete inputs used by the theorems below. -/

/-- Byte list of the class name `"Super"`. -/
def superName : List Nat := [83, 117, 112, 101, 114]

/-- A pool whose entry 1 is a Class reference resolving, through entry 2,
to the UTF8 name `"Super"`. -/
def cpS : ConstantPool := ⟨[.Class 2, .UTF8 superName]⟩

/-- A decoded class whose `super_class` index is `1`, resolvable to
`"Super"` through `cpS`. -/
def c1_class : Class := ⟨⟨0, 52⟩, cpS, 0, 1, 1, [], ⟨[]⟩, ⟨[]⟩⟩

/-- The same class with `super_class` index `0` (no superclass). -/
def c1_class0 : Class := ⟨⟨0, 52⟩, cpS, 0, 1, 0, [], ⟨[]⟩, ⟨[]⟩⟩

/-- A pool whose only entry is the UTF8 string `"Foo"`, a name no
attribute decoder recognises. -/
def cpFoo : ConstantPool := ⟨[.UTF8 [70, 111, 111]]⟩

/-- A pool whose only entry is the UTF8 string `"ConstantValue"`. -/
def cpCV : ConstantPool := ⟨[.UTF8 constantValueName]⟩

/-- A method record named through pool index 1 whose attribute table
holds a `LineNumberTable` first and a `Code` attribute second. -/
def c9_main_item : FieldOrMethodItem :=
  ⟨9, 1, 2, ⟨[.LineNumberTable [], .Code 1 1 [42] [] []]⟩⟩

/-- A class whose single method is named `"main"` (pool index 1) and
carries its `Code` attribute in second position. -/
def c9_class : Class := ⟨⟨0, 52⟩, ⟨[.UTF8 mainName]⟩, 0, 1, 1, [], ⟨[]⟩, ⟨[c9_main_item]⟩⟩

/-- A class with no method named `"main"` (empty pool, empty tables). -/
def c9_nomain_class : Class := ⟨⟨0, 52⟩, ⟨[]⟩, 0, 1, 1, [], ⟨[]⟩, ⟨[]⟩⟩

/-! Helper lemmas shared by several of the claim theorems. -/

/-- Bitwise or of numbers with disjoint bit ranges is addition: when `a`
is a multiple of `2 ^ k` and `c < 2 ^ k`, `a ||| c = a + c`. -/
theorem lor_eq_add (a c k : Nat) (ha : 2 ^ k ∣ a) (hc : c < 2 ^ k) :
    a ||| c = a + c := by
  obtain ⟨m, rfl⟩ := ha
  apply Nat.eq_of_testBit_eq
  intro j
  rw [Nat.testBit_lor, Nat.testBit_mul_pow_two_add m hc j]
  by_cases hj : j < k
  · rw [if_pos hj]
    have hhi : (2 ^ k * m).testBit j = false := by
      rw [Nat.mul_comm, ← Nat.shiftLeft_eq, Nat.testBit_shiftLeft]
      have : ¬ (k ≤ j) := by omega
      simp [this]
    rw [hhi, Bool.false_or]
  · rw [if_neg hj]
    have hk : k ≤ j := by omega
    have hlo : c.testBit j = false :=
      Nat.testBit_eq_false_of_lt
        (lt_of_lt_of_le hc (Nat.pow_le_pow_right (by norm_num) hk))
    have hhi : (2 ^ k * m).testBit j = m.testBit (j - k) := by
      rw [Nat.mul_comm, ← Nat.shiftLeft_eq, Nat.testBit_shiftLeft]
      simp [hk]
    rw [hlo, hhi, Bool.or_false]

/-- A wrong magic number makes `read_class` panic before anything else
is decoded. -/
theorem read_class_bad_magic (fuel : Nat) (cf : ClassFile)
    (h : (cf.read_u32).1 ≠ 0xCAFEBABE) :
    ClassFile.read_class fuel cf = .abort "magic bytes not found" := by
  rcases h32 : cf.read_u32 with ⟨magic, cf2⟩
  rw [h32] at h
  dsimp only at h
  unfold ClassFile.read_class
  rw [h32]
  dsimp only
  rw [if_pos h]

/-- A tag outside the dispatch table of `ConstantPool::new` panics with
the tag in the message. -/
theorem read_cp_item_unknown_tag (cf : ClassFile) (tag : Nat)
    (h7 : tag ≠ 7) (h10 : tag ≠ 10) (h11 : tag ≠ 11) (h15 : tag ≠ 15)
    (h12 : tag ≠ 12) (h1 : tag ≠ 1) :
    read_cp_item cf tag =
      .abort ("constant object with tag: " ++ toString tag ++ " not implemented") := by
  unfold read_cp_item
  rw [if_neg h7, if_neg h10, if_neg h11, if_neg h15, if_neg h12, if_neg h1]

/-- An attribute name other than the three known ones makes the
attribute dispatch panic. -/
theorem attr_dispatch_unknown_name (cp : ConstantPool) (fuel : Nat)
    (s : List Nat) (cf : ClassFile)
    (hc : s ≠ codeName) (hv : s ≠ constantValueName) (hl : s ≠ lineNumberTableName) :
    attr_dispatch cp (fuel + 1) s cf = .abort "attribute not implemented" := by
  show (if s = codeName then _ else _) = _
  rw [if_neg hc, if_neg hv, if_neg hl]

/-- C1: the claim states that `super_class_name` returns `None` iff the
`super_class` index is exactly `0` and `Some` of the resolved name for
every non-zero index.  The code has the conditional inverted relative to
its own `has_super_class` check: evaluated at a class whose
`super_class` index is `1` and whose pool resolves that index to
`"Super"`, it returns `None`; and at a class whose index is `0` it tries
to resolve index `0` and panics instead of returning `None`. -/
theorem super_class_name_inverted_on_code :
    c1_class.super_class = 1 ∧
    c1_class.constant_pool.class_name c1_class.super_class = .ok superName ∧
    c1_class.super_class_name = .ok none ∧
    c1_class0.super_class = 0 ∧
    c1_class0.super_class_name = .abort "attempt to subtract with overflow" :=
  ⟨rfl, rfl, rfl, rfl, rfl⟩

/-- C2 counterexample: a four-byte input whose magic word is not
`0xCAFEBABE` makes `read_class` abort (panic) instead of returning a
typed error value, refuting the claim that no decoding operation aborts
the process. -/
theorem read_class_aborts_on_bad_magic_concrete :
    ClassFile.read_class 100 ⟨[0, 0, 0, 0], 0⟩ = .abort "magic bytes not found" := rfl

/-- C2 amended: decoding aborts (panics) on malformed input rather than
returning a typed error: a wrong magic number panics in `read_class`, an
unrecognized constant-pool tag panics in the tag dispatch, and an
unrecognized attribute name panics in the attribute dispatch. -/
theorem decoding_aborts_on_malformed_input :
    (∀ (fuel : Nat) (cf : ClassFile), (cf.read_u32).1 ≠ 0xCAFEBABE →
        ClassFile.read_class fuel cf = .abort "magic bytes not found") ∧
    (∀ (cf : ClassFile) (tag : Nat),
        tag ≠ 7 → tag ≠ 10 → tag ≠ 11 → tag ≠ 15 → tag ≠ 12 → tag ≠ 1 →
        read_cp_item cf tag =
          .abort ("constant object with tag: " ++ toString tag ++ " not implemented")) ∧
    (∀ (cp : ConstantPool) (fuel : Nat) (s : List Nat) (cf : ClassFile),
        s ≠ codeName → s ≠ constantValueName → s ≠ lineNumberTableName →
        attr_dispatch cp (fuel + 1) s cf = .abort "attribute not implemented") :=
  ⟨read_class_bad_magic, read_cp_item_unknown_tag, attr_dispatch_unknown_name⟩

/-- C2 witness: the three abort behaviours at concrete inputs. -/
theorem decoding_aborts_on_malformed_input_witness :
    ClassFile.read_class 7 ⟨[1, 2, 3, 4], 0⟩ = .abort "magic bytes not found" ∧
    read_cp_item ⟨[], 0⟩ 3 =
      .abort ("constant object with tag: " ++ toString 3 ++ " not implemented") ∧
    attr_dispatch ⟨[]⟩ 5 [88] ⟨[], 0⟩ = .abort "attribute not implemented" :=
  ⟨decoding_aborts_on_malformed_input.1 7 ⟨[1, 2, 3, 4], 0⟩ (by decide),
   decoding_aborts_on_malformed_input.2.1 ⟨[], 0⟩ 3 (by decide) (by decide) (by decide)
     (by decide) (by decide) (by decide),
   decoding_aborts_on_malformed_input.2.2 ⟨[]⟩ 5 [88] ⟨[], 0⟩ (by decide) (by decide)
     (by decide)⟩

/-- C3 counterexample: the claim states that the descriptor parser maps
`"(IZI)I"` to a method signature with arguments Int, Boolean, Int; the
code's `read_type` returns `Method Int [Int, Int]` for it — a default
value, not the claimed signature and not a `DescriptorSyntaxError`
(no such error exists in the code). -/
theorem read_type_not_descriptor_parse_cex :
    read_type "(IZI)I" = Type'.Method Type'.Int [Type'.Int, Type'.Int] ∧
    Type'.Method Type'.Int [Type'.Int, Type'.Int] ≠
      Type'.Method Type'.Int [Type'.Int, Type'.Booean, Type'.Int] := by
  refine ⟨rfl, ?_⟩
  intro h
  simp only [Type'.Method.injEq, List.cons.injEq, and_true, true_and] at h
  exact List.cons_ne_nil Type'.Int [] h.2.symm

/-- C3 amended: `read_type` ignores the structure of its input and
returns the constant `Method { return: Int, arguments: [Int, Int] }`
for every descriptor string; no parsing and no error path exists. -/
theorem read_type_constant (s : String) :
    read_type s = Type'.Method Type'.Int [Type'.Int, Type'.Int] := rfl

/-- C4 counterexample: an attribute record whose resolved name is the
unknown `"Foo"` makes `Attributes::new` abort (panic), instead of being
decoded as an Opaque record with decoding continuing as claimed.  The
input declares one attribute (count `1`), name index `1`, length `5`. -/
theorem unknown_attribute_aborts_cex :
    Attributes.new cpFoo 10 ⟨[0, 1, 0, 1, 0, 0, 0, 5], 0⟩ =
      .abort "attribute not implemented" := rfl

/-- C4 amended: an attribute whose resolved name is not one of `Code`,
`ConstantValue`, `LineNumberTable` makes the attribute dispatch panic;
no Opaque fallback exists — the `AttributeItem` type has exactly those
three variants. -/
theorem unknown_attribute_never_preserved :
    (∀ (cp : ConstantPool) (fuel : Nat) (s : List Nat) (cf : ClassFile),
        s ≠ codeName → s ≠ constantValueName → s ≠ lineNumberTableName →
        attr_dispatch cp (fuel + 1) s cf = .abort "attribute not implemented") ∧
    (∀ a : AttributeItem,
        (∃ i, a = .ConstantValue i) ∨
        (∃ ms ml code et ats, a = .Code ms ml code et ats) ∨
        (∃ t, a = .LineNumberTable t)) := by
  refine ⟨attr_dispatch_unknown_name, ?_⟩
  intro a
  cases a with
  | ConstantValue i => exact .inl ⟨i, rfl⟩
  | Code ms ml code et ats => exact .inr (.inl ⟨ms, ml, code, et, ats, rfl⟩)
  | LineNumberTable t => exact .inr (.inr ⟨t, rfl⟩)

/-- C4 witness: the dispatch panic at the concrete unknown name
`"Foo"`. -/
theorem unknown_attribute_never_preserved_witness :
    attr_dispatch ⟨[]⟩ 3 [70, 111, 111] ⟨[], 0⟩ = .abort "attribute not implemented" :=
  unknown_attribute_never_preserved.1 ⟨[]⟩ 3 [70, 111, 111] ⟨[], 0⟩
    (by decide) (by decide) (by decide)

/-- C5 counterexample: building a constant pool over the input
`[0, 2, 99]` (count `2`, so one entry, whose tag `99` is not in the
dispatch table) aborts the whole build with a panic naming the tag —
there is no recoverable `UnsupportedConstantTag` error value. -/
theorem unknown_tag_aborts_cex :
    ConstantPool.new ⟨[0, 2, 99], 0⟩ =
      .abort "constant object with tag: 99 not implemented" := rfl

/-- C5 amended: a one-byte tag not in the dispatch table (not 7, 10, 11,
15, 12 or 1) makes constant-pool entry decoding panic with a message
carrying the tag; the build aborts rather than returning an
`UnsupportedConstantTag(tag)` error value. -/
theorem unknown_tag_panics_not_error_value :
    ∀ (cf : ClassFile) (tag : Nat),
      tag ≠ 7 → tag ≠ 10 → tag ≠ 11 → tag ≠ 15 → tag ≠ 12 → tag ≠ 1 →
      read_cp_item cf tag =
        .abort ("constant object with tag: " ++ toString tag ++ " not implemented") :=
  read_cp_item_unknown_tag

/-- C5 witness: the panic at the concrete unknown tag `99`. -/
theorem unknown_tag_panics_not_error_value_witness :
    read_cp_item ⟨[], 0⟩ 99 =
      .abort ("constant object with tag: " ++ toString 99 ++ " not implemented") :=
  unknown_tag_panics_not_error_value ⟨[], 0⟩ 99 (by decide) (by decide) (by decide)
    (by decide) (by decide) (by decide)

/-- C6 counterexample: an attribute table whose single `ConstantValue`
attribute declares length `100` decodes successfully while its decoder
consumes only 2 payload bytes (the final position is 10: 2 count +
2 name + 4 length + 2 payload): the mismatch between declared and
consumed length is not detected — no `AttributeLengthMismatch` error
exists in the code. -/
theorem attribute_length_ignored_cex :
    Attributes.new cpCV 10 ⟨[0, 1, 0, 1, 0, 0, 0, 100, 0, 5], 0⟩ =
      .ok (⟨[.ConstantValue 5]⟩, ⟨[0, 1, 0, 1, 0, 0, 0, 100, 0, 5], 10⟩) ∧
    (ClassFile.read_u32 ⟨[0, 1, 0, 1, 0, 0, 0, 100, 0, 5], 4⟩).1 = 100 :=
  ⟨rfl, rfl⟩

/-- C6 amended: the attribute decoder reads the declared
`attribute_length` and discards it; the number of bytes actually
consumed is never compared to it, so the decoding result is the same
whatever the four length bytes say. -/
theorem attribute_length_discarded (a b c d : Nat) :
    Attributes.new cpCV 10 ⟨[0, 1, 0, 1, a, b, c, d, 0, 5], 0⟩ =
      .ok (⟨[.ConstantValue 5]⟩, ⟨[0, 1, 0, 1, a, b, c, d, 0, 5], 10⟩) := by
  simp [Attributes.new, attr_items, attr_dispatch, ClassFile.read_u16, ClassFile.read_u32,
    file_read, cpCV, constantValueName, codeName, lineNumberTableName, DResult.map]

/-- C7 counterexample: on a byte source holding the single byte `171`,
`read_u16` and `read_u32` do not fail with `UnexpectedEof`: they return
values assembled from the partial read with zero padding
(`171 * 256 = 43776` and `171 * 2 ^ 24 = 2868903936`). -/
theorem short_read_returns_value_cex :
    ClassFile.read_u16 ⟨[171], 0⟩ = (43776, ⟨[171], 1⟩) ∧
    ClassFile.read_u32 ⟨[171], 0⟩ = (2868903936, ⟨[171], 1⟩) ∧
    171 * 256 = 43776 ∧ 171 * 2 ^ 24 = 2868903936 :=
  ⟨rfl, rfl, rfl, rfl⟩

/-- C7 amended: the primitive reads decode big-endian as claimed, but on
a source with fewer remaining bytes than requested they do not fail:
they return a value assembled from the available bytes padded with
zeros (in particular `0` at end of file), advancing past what was
read. -/
theorem primitive_reads_big_endian_zero_padded :
    (∀ (b0 : Nat) (rest : List Nat),
        ClassFile.read_u8 ⟨b0 :: rest, 0⟩ = (b0, ⟨b0 :: rest, 1⟩)) ∧
    (∀ (b0 b1 : Nat) (rest : List Nat), b0 < 256 → b1 < 256 →
        ClassFile.read_u16 ⟨b0 :: b1 :: rest, 0⟩ =
          (b0 * 256 + b1, ⟨b0 :: b1 :: rest, 2⟩)) ∧
    (∀ (b0 b1 b2 b3 : Nat) (rest : List Nat),
        b0 < 256 → b1 < 256 → b2 < 256 → b3 < 256 →
        ClassFile.read_u32 ⟨b0 :: b1 :: b2 :: b3 :: rest, 0⟩ =
          (((b0 * 256 + b1) * 256 + b2) * 256 + b3, ⟨b0 :: b1 :: b2 :: b3 :: rest, 4⟩)) ∧
    (∀ cf : ClassFile, cf.data.length ≤ cf.pos →
        cf.read_u8 = (0, cf) ∧ cf.read_u16 = (0, cf) ∧ cf.read_u32 = (0, cf)) ∧
    (∀ b0 : Nat, b0 < 256 →
        ClassFile.read_u16 ⟨[b0], 0⟩ = (b0 * 256, ⟨[b0], 1⟩)) := by
  refine ⟨?_, ?_, ?_, ?_, ?_⟩
  · intro b0 rest
    rfl
  · intro b0 b1 rest h0 h1
    have e : ClassFile.read_u16 ⟨b0 :: b1 :: rest, 0⟩ =
        (b0 <<< 8 ||| b1, ⟨b0 :: b1 :: rest, 2⟩) := rfl
    rw [e]
    have hv : b0 <<< 8 ||| b1 = b0 * 256 + b1 := by
      rw [Nat.shiftLeft_eq]
      rw [lor_eq_add (b0 * 2 ^ 8) b1 8 ⟨b0, by ring⟩ (by omega)]
    rw [hv]
  · intro b0 b1 b2 b3 rest h0 h1 h2 h3
    have e : ClassFile.read_u32 ⟨b0 :: b1 :: b2 :: b3 :: rest, 0⟩ =
        (b0 <<< 24 ||| b1 <<< 16 ||| b2 <<< 8 ||| b3,
         ⟨b0 :: b1 :: b2 :: b3 :: rest, 4⟩) := rfl
    rw [e]
    have hv : b0 <<< 24 ||| b1 <<< 16 ||| b2 <<< 8 ||| b3 =
        ((b0 * 256 + b1) * 256 + b2) * 256 + b3 := by
      rw [Nat.shiftLeft_eq, Nat.shiftLeft_eq, Nat.shiftLeft_eq]
      rw [lor_eq_add (b0 * 2 ^ 24) (b1 * 2 ^ 16) 24 ⟨b0, by ring⟩ (by omega)]
      rw [lor_eq_add (b0 * 2 ^ 24 + b1 * 2 ^ 16) (b2 * 2 ^ 8) 16
        ⟨b0 * 2 ^ 8 + b1, by ring⟩ (by omega)]
      rw [lor_eq_add (b0 * 2 ^ 24 + b1 * 2 ^ 16 + b2 * 2 ^ 8) b3 8
        ⟨b0 * 2 ^ 16 + b1 * 2 ^ 8 + b2, by ring⟩ (by omega)]
      ring
    rw [hv]
  · intro cf h
    have hd : cf.data.drop cf.pos = [] := List.drop_eq_nil_of_le h
    refine ⟨?_, ?_, ?_⟩ <;>
      simp [ClassFile.read_u8, ClassFile.read_u16, ClassFile.read_u32, file_read, hd]
  · intro b0 h0
    have e : ClassFile.read_u16 ⟨[b0], 0⟩ = (b0 <<< 8 ||| 0, ⟨[b0], 1⟩) := rfl
    rw [e]
    have hv : b0 <<< 8 ||| 0 = b0 * 256 := by
      rw [Nat.shiftLeft_eq, Nat.or_zero]
    rw [hv]

/-- C7 witness: full and partial reads at concrete bytes. -/
theorem primitive_reads_big_endian_zero_padded_witness :
    ClassFile.read_u16 ⟨[202, 254, 0], 0⟩ = (202 * 256 + 254, ⟨[202, 254, 0], 2⟩) ∧
    ClassFile.read_u32 ⟨[202, 254, 186, 190], 0⟩ =
      (((202 * 256 + 254) * 256 + 186) * 256 + 190, ⟨[202, 254, 186, 190], 4⟩) ∧
    ClassFile.read_u16 ⟨[171], 0⟩ = (171 * 256, ⟨[171], 1⟩) :=
  ⟨primitive_reads_big_endian_zero_padded.2.1 202 254 [0] (by decide) (by decide),
   primitive_reads_big_endian_zero_padded.2.2.1 202 254 186 190 []
     (by decide) (by decide) (by decide) (by decide),
   primitive_reads_big_endian_zero_padded.2.2.2.2 171 (by decide)⟩

/-- C8 counterexample: `class_name` does not return an
`InvalidConstantReference` error value — index `0` hits the `usize`
underflow panic of `items[index - 1]`, an out-of-range index hits the
out-of-bounds indexing panic, and an index resolving to a non-Class
entry hits the explicit `reference error` panic. -/
theorem class_name_panics_cex :
    ConstantPool.class_name cpS 0 = .abort "attempt to subtract with overflow" ∧
    ConstantPool.class_name cpS 5 = .abort "index out of bounds" ∧
    ConstantPool.class_name ⟨[.UTF8 superName]⟩ 1 = .abort "reference error" :=
  ⟨rfl, rfl, rfl⟩

/-- C8 amended: resolution failures panic instead of yielding an error
value: index `0` panics with subtract-with-overflow, any index beyond
the pool (in particular any index at least `constant_pool_count`, the
item count plus one) panics with index-out-of-bounds, and an index
resolving to a non-Class entry panics with `reference error`. -/
theorem class_name_panics_on_bad_index :
    (∀ cp : ConstantPool, cp.class_name 0 = .abort "attempt to subtract with overflow") ∧
    (∀ (cp : ConstantPool) (index : Nat), cp.items.length < index →
        cp.class_name index = .abort "index out of bounds") ∧
    (∀ (cp : ConstantPool) (index : Nat) (item : ConstantPoolItem),
        index ≠ 0 → cp.items.get? (index - 1) = some item →
        (∀ ni, item ≠ .Class ni) →
        cp.class_name index = .abort "reference error") := by
  refine ⟨?_, ?_, ?_⟩
  · intro cp
    unfold ConstantPool.class_name
    rw [if_pos rfl]
  · intro cp index h
    have h0 : ¬ (index = 0) := by omega
    unfold ConstantPool.class_name
    rw [if_neg h0]
    have hn : cp.items.get? (index - 1) = none := by
      rw [List.get?_eq_none]
      omega
    rw [hn]
  · intro cp index item h0 hget hni
    unfold ConstantPool.class_name
    rw [if_neg h0, hget]
    cases item
    case Class ni => exact absurd rfl (hni ni)
    all_goals rfl

/-- C8 witness: the three panic modes at concrete pools. -/
theorem class_name_panics_on_bad_index_witness :
    ConstantPool.class_name ⟨[]⟩ 0 = .abort "attempt to subtract with overflow" ∧
    ConstantPool.class_name ⟨[.Class 1]⟩ 2 = .abort "index out of bounds" ∧
    ConstantPool.class_name ⟨[.NameAndType 1 2]⟩ 1 = .abort "reference error" :=
  ⟨class_name_panics_on_bad_index.1 ⟨[]⟩,
   class_name_panics_on_bad_index.2.1 ⟨[.Class 1]⟩ 2 (by decide),
   class_name_panics_on_bad_index.2.2 ⟨[.NameAndType 1 2]⟩ 1 (.NameAndType 1 2)
     (by decide) rfl (fun _ h => ConstantPoolItem.noConfusion h)⟩

/-- C9 counterexample: `c9_class` has a method named `main` whose
`Code` attribute sits in second position of its attribute table (after
a `LineNumberTable`), yet `main_func_code` returns `none`: the loop's
wildcard arm returns on the first non-Code attribute, so a `Code`
attribute at any later position is never found — refuting the claim
that the code is returned wherever it sits in the table. -/
theorem main_func_code_misses_later_code_cex :
    c9_class.field_or_method_by_name mainName = some c9_main_item ∧
    c9_main_item.attributes.items.get? 1 = some (.Code 1 1 [42] [] []) ∧
    c9_class.main_func_code = .ok none :=
  ⟨rfl, rfl, rfl⟩

/-- C9 amended: `main_func_code` is specialized to the method named
`main`; it panics (via `Option::unwrap`) when no such method exists,
returns `Some` of the code bytes only when the method's first attribute
is a `Code` attribute, and returns `None` when the attribute table is
empty or starts with any other attribute — even if a `Code` attribute
occurs later. -/
theorem main_func_code_first_attribute_only :
    (∀ c : Class, c.field_or_method_by_name mainName = none →
        c.main_func_code = .abort "called Option unwrap on a None value") ∧
    (∀ (c : Class) (item : FieldOrMethodItem),
        c.field_or_method_by_name mainName = some item →
        item.attributes.items = [] → c.main_func_code = .ok none) ∧
    (∀ (c : Class) (item : FieldOrMethodItem) (ms ml : Nat) (code : List Nat)
        (et : List ExceptionTable) (ats rest : List AttributeItem),
        c.field_or_method_by_name mainName = some item →
        item.attributes.items = .Code ms ml code et ats :: rest →
        c.main_func_code = .ok (some code)) ∧
    (∀ (c : Class) (item : FieldOrMethodItem) (a : AttributeItem)
        (rest : List AttributeItem),
        c.field_or_method_by_name mainName = some item →
        item.attributes.items = a :: rest →
        (∀ ms ml code et ats, a ≠ .Code ms ml code et ats) →
        c.main_func_code = .ok none) := by
  refine ⟨?_, ?_, ?_, ?_⟩
  · intro c h
    simp [Class.main_func_code, h]
  · intro c item hf hi
    simp [Class.main_func_code, hf, hi]
  · intro c item ms ml code et ats rest hf hi
    simp [Class.main_func_code, hf, hi]
  · intro c item a rest hf hi hna
    cases a with
    | ConstantValue i => simp [Class.main_func_code, hf, hi]
    | Code ms ml code et ats => exact absurd rfl (hna ms ml code et ats)
    | LineNumberTable t => simp [Class.main_func_code, hf, hi]

/-- C9 witness: the panic without a `main` method, and the `none`
result when the first attribute is not `Code`. -/
theorem main_func_code_first_attribute_only_witness :
    c9_nomain_class.main_func_code = .abort "called Option unwrap on a None value" ∧
    c9_class.main_func_code = .ok none :=
  ⟨main_func_code_first_attribute_only.1 c9_nomain_class rfl,
   main_func_code_first_attribute_only.2.2.2 c9_class c9_main_item (.LineNumberTable [])
     [AttributeItem.Code 1 1 [42] [] []] rfl rfl
     (fun _ _ _ _ _ h => AttributeItem.noConfusion h)⟩

/-- C10: `ConstantPool::new` computes the entry count as
`constant_pool_count - 1` on `u16`: when the count field reads as `0`
the subtraction underflows (a panic in a debug build, modelled by the
abort), and for any count of the form `n + 1` the build decodes exactly
`n` entries — so totality indeed requires `constant_pool_count ≥ 1`. -/
theorem constant_pool_count_underflow :
    (∀ cf : ClassFile, (cf.read_u16).1 = 0 →
        ConstantPool.new cf = .abort "attempt to subtract with overflow") ∧
    (∀ (cf : ClassFile) (n : Nat), (cf.read_u16).1 = n + 1 →
        ConstantPool.new cf =
          (constant_pool_items n (cf.read_u16).2).map fun (items, cf') =>
            (⟨items⟩, cf')) := by
  constructor
  · intro cf h
    rcases h16 : cf.read_u16 with ⟨count, cf2⟩
    rw [h16] at h
    dsimp only at h
    unfold ConstantPool.new
    rw [h16]
    dsimp only
    rw [if_pos h]
  · intro cf n h
    rcases h16 : cf.read_u16 with ⟨count, cf2⟩
    rw [h16] at h
    dsimp only at h
    unfold ConstantPool.new
    rw [h16]
    dsimp only
    rw [h, if_neg (Nat.succ_ne_zero n), Nat.add_sub_cancel]

/-- C10 witness: the underflow panic on the concrete input whose count
field is `0`. -/
theorem constant_pool_count_underflow_witness :
    ConstantPool.new ⟨[0, 0], 0⟩ = .abort "attempt to subtract with overflow" :=
  constant_pool_count_underflow.1 ⟨[0, 0], 0⟩ (by decide)

end Rustcafe
